import Mathlib

/-!
Shallow embedding of the impact consequence calculation engine of the
`meatier-not-meteor` repository, together with proofs settling the frozen
claims about its specification.

JavaScript numbers are modelled as real numbers (`ℝ`): `Math.pow` becomes
`Real.rpow` (written `x ^ (e : ℝ)`), `Math.log10 x` becomes `Real.logb 10 x`,
`Math.sqrt` becomes `Real.sqrt`, `Math.round x` becomes Mathlib's
`round x = ⌊x + 1/2⌋` (which agrees with JavaScript rounding, half toward
positive infinity), and `Math.min`/`Math.max` become `min`/`max`.
-/

namespace SimulationManager

/-- `getAsteroidDensity` (src/js/core/SimulationManager.js lines 44-52):
density table with fallback to the mixed density 2500 for unknown
composition strings. -/
noncomputable def getAsteroidDensity (composition : String) : ℝ :=
  if composition = "rocky" then 3000
  else if composition = "metallic" then 7800
  else if composition = "icy" then 1500
  else if composition = "mixed" then 2500
  else 2500

/-- `calculateCraterDiameter` (lines 54-58).  The `velocity` argument is
accepted and ignored exactly as in the source. -/
noncomputable def calculateCraterDiameter (explosiveYield velocity : ℝ) : ℝ :=
  max (1.16 * explosiveYield ^ (0.294 : ℝ)) 0.1

/-- `calculateFireballRadius` (lines 60-64). -/
noncomputable def calculateFireballRadius (explosiveYield : ℝ) : ℝ :=
  max (0.28 * explosiveYield ^ (0.4 : ℝ)) 0.05

/-- `calculateBlastRadius` (lines 66-70). -/
noncomputable def calculateBlastRadius (explosiveYield : ℝ) : ℝ :=
  max (0.45 * explosiveYield ^ (0.33 : ℝ)) 0.1

/-- `calculateSeismicMagnitude` (lines 72-76). -/
noncomputable def calculateSeismicMagnitude (explosiveYield : ℝ) : ℝ :=
  max (0.67 * Real.logb 10 explosiveYield + 4.0) 1.0

/-- The physical-effects record assembled at lines 252-265 and stored in
`this.results.impactData` (lines 284-292). -/
structure ImpactData where
  mass : ℝ
  kineticEnergy : ℝ
  explosiveYield : ℝ
  craterDiameter : ℝ
  fireballRadius : ℝ
  blastRadius : ℝ
  seismicMagnitude : ℝ

/-- The computation of `calculateResults` at lines 252-265: density lookup,
spherical mass, kinetic energy with the km/s → m/s conversion, TNT
equivalent, and the four scaling-law effects. -/
noncomputable def computeImpactData (asteroidSize asteroidVelocity : ℝ)
    (composition : String) : ImpactData :=
  let density := getAsteroidDensity composition
  let radius := asteroidSize / 2
  let mass := (4 / 3) * Real.pi * radius ^ (3 : ℕ) * density
  let velocity := asteroidVelocity * 1000
  let kineticEnergy := 0.5 * mass * velocity ^ (2 : ℕ)
  let explosiveYield := kineticEnergy / (4.184 * 10 ^ (9 : ℕ))
  { mass := mass
    kineticEnergy := kineticEnergy
    explosiveYield := explosiveYield
    craterDiameter := calculateCraterDiameter explosiveYield velocity
    fireballRadius := calculateFireballRadius explosiveYield
    blastRadius := calculateBlastRadius explosiveYield
    seismicMagnitude := calculateSeismicMagnitude explosiveYield }

/-- The five severity strings returned by `getSeverityClass` (lines 324-330). -/
inductive Severity where
  | low
  | moderate
  | high
  | severe
  | catastrophic
deriving DecidableEq, Repr

/-- Numeric rank of a severity tier, used to state monotonicity. -/
def Severity.rank : Severity → ℕ
  | .low => 0
  | .moderate => 1
  | .high => 2
  | .severe => 3
  | .catastrophic => 4

/-- `getSeverityClass` (lines 324-330). -/
noncomputable def getSeverityClass (explosiveYield : ℝ) : Severity :=
  if explosiveYield < 0.1 then .low
  else if explosiveYield < 1 then .moderate
  else if explosiveYield < 10 then .high
  else if explosiveYield < 100 then .severe
  else .catastrophic

/-- The casualty record returned by `calculateCasualties` (lines 304-322);
the three fields are results of `Math.round`, hence integers. -/
structure Casualties where
  estimated : ℤ
  injured : ℤ
  fatalities : ℤ
deriving DecidableEq, Repr

/-- `calculateCasualties` (lines 304-322).  The population density is the
local constant 50 people/km² of the source; `explosiveYield` is accepted
and ignored exactly as in the source. -/
noncomputable def calculateCasualties (explosiveYield blastRadius : ℝ) :
    Casualties :=
  let populationDensity : ℝ := 50
  let affectedArea := Real.pi * blastRadius ^ (2 : ℕ)
  let affectedPopulation := affectedArea * populationDensity
  let casualties : ℤ :=
    if 0 < blastRadius then
      round (affectedPopulation * min 0.9 (blastRadius / 100))
    else 0
  { estimated := casualties
    injured := round ((casualties : ℝ) * 0.3)
    fatalities := round ((casualties : ℝ) * 0.7) }

/-- One bounding box of the `landRegions` table of `isOceanLocation`
(lines 117-123). -/
structure LandRegion where
  minLat : ℝ
  maxLat : ℝ
  minLng : ℝ
  maxLng : ℝ

/-- The five landmass bounding boxes of `isOceanLocation` (lines 117-123):
Africa/Europe, Asia, North America, South America, Australia. -/
noncomputable def landRegions : List LandRegion :=
  [⟨-35, 37, -25, 60⟩,
   ⟨50, 80, 20, 180⟩,
   ⟨30, 70, -170, -50⟩,
   ⟨-55, 15, -85, -30⟩,
   ⟨-45, -10, 110, 155⟩]

/-- The loop-body test of `isOceanLocation` (lines 125-130): is the point
inside the given bounding box? -/
noncomputable def inLandRegion (latitude longitude : ℝ) (region : LandRegion) :
    Bool :=
  if region.minLat ≤ latitude ∧ latitude ≤ region.maxLat ∧
      region.minLng ≤ longitude ∧ longitude ≤ region.maxLng then
    true
  else false

/-- `isOceanLocation` (lines 112-134): `false` as soon as some land box
contains the point, otherwise `true`. -/
noncomputable def isOceanLocation (latitude longitude : ℝ) : Bool :=
  if landRegions.any (inLandRegion latitude longitude) then false else true

/-- Distance to one entry of the `majorCoasts` table
(`calculateDistanceFromCoast`, lines 169-174). -/
noncomputable def coastDistance (latitude longitude coastLat coastLng : ℝ) : ℝ :=
  Real.sqrt ((latitude - coastLat) ^ (2 : ℕ) + (longitude - coastLng) ^ (2 : ℕ))
    * 111

/-- `calculateDistanceFromCoast` (lines 156-177).  The source loop folds
`Math.min` starting from `Infinity` over the five `majorCoasts` entries
(New York, London, Tokyo, Sydney, Rio de Janeiro), which equals the
five-way minimum. -/
noncomputable def calculateDistanceFromCoast (latitude longitude : ℝ) : ℝ :=
  min (coastDistance latitude longitude 40.7128 (-74.0060))
    (min (coastDistance latitude longitude 51.5074 (-0.1278))
      (min (coastDistance latitude longitude 35.6762 139.6503)
        (min (coastDistance latitude longitude (-33.8688) 151.2093)
          (coastDistance latitude longitude (-22.9068) (-43.1729)))))

/-- `estimateWaterDepth` (lines 136-154). -/
noncomputable def estimateWaterDepth (latitude longitude : ℝ) : ℝ :=
  let distanceFromCoast := calculateDistanceFromCoast latitude longitude
  if distanceFromCoast < 50 then 100
  else if distanceFromCoast < 200 then 1500
  else 4000

/-- `calculateTsunamiHeight` (lines 179-194). -/
noncomputable def calculateTsunamiHeight (explosiveYield waterDepth : ℝ) : ℝ :=
  let energyTransfer : ℝ := 0.1
  let yieldKt := explosiveYield / 1000
  let tsunamiHeight :=
    2.0 * (yieldKt * energyTransfer) ^ (0.25 : ℝ) /
      (max waterDepth 100 / 1000) ^ (0.5 : ℝ)
  min (max tsunamiHeight 0) 100

/-- `assessTsunamiRisk` (lines 196-202). -/
noncomputable def assessTsunamiRisk (tsunamiHeight : ℝ) : String :=
  if tsunamiHeight < 1 then "Low"
  else if tsunamiHeight < 5 then "Moderate"
  else if tsunamiHeight < 15 then "High"
  else if tsunamiHeight < 30 then "Very High"
  else "Extreme"

/-- `calculateTsunamiAffectedDistance` (lines 204-215). -/
noncomputable def calculateTsunamiAffectedDistance (explosiveYield : ℝ) : ℝ :=
  let yieldKt := explosiveYield / 1000
  let baseDistance : ℝ := 200
  let energyFactor := yieldKt ^ (0.4 : ℝ)
  min (baseDistance * energyFactor) 2000

/-- `calculateTsunamiWarningTime` (lines 217-228).  `affectedDistance` is
accepted and ignored exactly as in the source. -/
noncomputable def calculateTsunamiWarningTime
    (latitude longitude affectedDistance : ℝ) : ℝ :=
  let tsunamiSpeed : ℝ := 720
  let nearestCoastDistance := calculateDistanceFromCoast latitude longitude
  max (nearestCoastDistance / tsunamiSpeed) 0.1

/-- The record returned by `calculateTsunamiEffects` (lines 78-110). -/
structure TsunamiEffects where
  tsunamiHeight : ℝ
  tsunamiRisk : String
  affectedDistance : ℝ
  warningTime : ℝ

/-- `calculateTsunamiEffects` (lines 78-110). -/
noncomputable def calculateTsunamiEffects
    (explosiveYield latitude longitude : ℝ) : TsunamiEffects :=
  if !isOceanLocation latitude longitude then
    { tsunamiHeight := 0
      tsunamiRisk := "None"
      affectedDistance := 0
      warningTime := 0 }
  else
    let waterDepth := estimateWaterDepth latitude longitude
    let tsunamiHeight := calculateTsunamiHeight explosiveYield waterDepth
    let tsunamiRisk := assessTsunamiRisk tsunamiHeight
    let affectedDistance := calculateTsunamiAffectedDistance explosiveYield
    let warningTime :=
      calculateTsunamiWarningTime latitude longitude affectedDistance
    { tsunamiHeight := max tsunamiHeight 0
      tsunamiRisk := tsunamiRisk
      affectedDistance := max affectedDistance 0
      warningTime := max warningTime 0 }

/-- Errors an invocation of `calculateResults` can surface to its caller.
`referenceError` models the JavaScript `ReferenceError` thrown when an
unbound identifier is read; `validationError` is the error shape the
specification requires for out-of-range numeric fields (field name and
valid range).  The source never constructs the latter. -/
inductive JsError where
  | referenceError (ident : String)
  | validationError (field : String) (lo hi : ℝ)

/-- The global (top-level script or `window.*`) names bound to a numeric
value by the repository's scripts.  Every top-level binding in the
repository is a class declaration, `APIConfig`, or a `window.*` function
or manager object; none of them binds `latitude` or `longitude` (or any
other identifier) to a number, so this table is empty.  Reading an
identifier that resolves neither in the function scope nor here throws a
`ReferenceError`. -/
def globalNumericBindings : List (String × ℝ) := []

/-- Reading a free identifier of `calculateResults` from the enclosing
global scope.  The local `const` bindings of the function body (lines
231-268: `asteroidSize`, `asteroidVelocity`, `impactAngle`, `composition`,
`strategy`, `actionTime`, `density`, `radius`, `mass`, `velocity`,
`kineticEnergy`, `explosiveYield`, `craterDiameter`, `fireballRadius`,
`blastRadius`, `seismicMagnitude`, `casualties`) do not include `latitude`
or `longitude` either — the impact point lives only in
`this.parameters.latitude` / `this.parameters.longitude`. -/
def readGlobal (ident : String) : Option ℝ :=
  globalNumericBindings.lookup ident

/-- The raw form-field values `calculateResults` reads at lines 231-236,
after `parseFloat`: `none` models a `NaN` parse result. -/
structure RawInputs where
  asteroidSizeField : Option ℝ
  asteroidVelocityField : Option ℝ
  impactAngleField : Option ℝ
  compositionField : String
  strategyField : String
  actionTimeField : Option ℝ

/-- JavaScript `parseFloat(...) || default`: the default is used when the
parse failed (`NaN`, modelled `none`) or produced the falsy number 0. -/
noncomputable def numberOrDefault (x : Option ℝ) (default : ℝ) : ℝ :=
  match x with
  | none => default
  | some v => if v = 0 then default else v

/-- JavaScript `string || default`: the default is used for the falsy
empty string. -/
def stringOrDefault (s default : String) : String :=
  if s = "" then default else s

/-- The results record `calculateResults` would store (lines 282-299),
restricted to the engine fields (the defense-strategy list, parameter echo
and timestamp are UI plumbing). -/
structure SimulationResults where
  impactData : ImpactData
  casualties : Casualties
  tsunamiEffects : TsunamiEffects
  severity : Severity

/-- `calculateResults` (lines 230-302): reads the form fields with their
`|| default` fallbacks (100, 15, 45, "rocky", "none", 12), computes the
impact data and casualties, then evaluates
`this.calculateTsunamiEffects(explosiveYield, latitude, longitude)` at
line 271 — where `latitude` and `longitude` are free identifiers that
resolve nowhere, so the invocation throws a `ReferenceError` instead of
building the results record. -/
noncomputable def calculateResults (inputs : RawInputs) :
    Except JsError SimulationResults :=
  let asteroidSize := numberOrDefault inputs.asteroidSizeField 100
  let asteroidVelocity := numberOrDefault inputs.asteroidVelocityField 15
  let _impactAngle := numberOrDefault inputs.impactAngleField 45
  let composition := stringOrDefault inputs.compositionField "rocky"
  let data := computeImpactData asteroidSize asteroidVelocity composition
  let casualties := calculateCasualties data.explosiveYield data.blastRadius
  match readGlobal "latitude", readGlobal "longitude" with
  | some latitude, some longitude =>
      .ok { impactData := data
            casualties := casualties
            tsunamiEffects :=
              calculateTsunamiEffects data.explosiveYield latitude longitude
            severity := getSeverityClass data.explosiveYield }
  | _, _ => .error (JsError.referenceError "latitude")

/-- Does an invocation outcome reject with the `ValidationError` shape the
specification demands? -/
def isValidationError : Except JsError SimulationResults → Bool
  | .error (.validationError _ _ _) => true
  | _ => false

end SimulationManager

namespace MapManager

/-- `getAsteroidDensity` (src/js/visualization/MapManager.js lines
471-479): this duplicate of the density table uses 4500 for mixed and
falls back to 3000. -/
noncomputable def getAsteroidDensity (composition : String) : ℝ :=
  if composition = "rocky" then 3000
  else if composition = "metallic" then 7800
  else if composition = "icy" then 1500
  else if composition = "mixed" then 4500
  else 3000

/-- `isContinental` (MapManager.js lines 565-587). -/
noncomputable def isContinental (lat lng : ℝ) : Bool :=
  if 15 ≤ lat ∧ lat ≤ 85 ∧ -180 ≤ lng ∧ lng ≤ -50 then true
  else if -60 ≤ lat ∧ lat ≤ 15 ∧ -85 ≤ lng ∧ lng ≤ -30 then true
  else if 35 ≤ lat ∧ lat ≤ 75 ∧ -25 ≤ lng ∧ lng ≤ 45 then true
  else if 15 ≤ lat ∧ lat ≤ 75 ∧ 45 ≤ lng ∧ lng ≤ 180 then true
  else if -35 ≤ lat ∧ lat ≤ 40 ∧ -20 ≤ lng ∧ lng ≤ 55 then true
  else if -50 ≤ lat ∧ lat ≤ -10 ∧ 110 ≤ lng ∧ lng ≤ 180 then true
  else if lat ≤ -60 then true
  else false

/-- `getOceanDepth` (MapManager.js lines 588-665).  Each invocation
evaluates `Math.random()` exactly once, in whichever branch is reached;
`r ∈ [0,1)` is that draw.  The first Pacific guard
(`lng >= 120 && lng <= -120`) is unsatisfiable, exactly as in the source. -/
noncomputable def getOceanDepth (lat lng r : ℝ) : ℝ :=
  if -60 ≤ lat ∧ lat ≤ 60 ∧ 120 ≤ lng ∧ lng ≤ -120 then
    if 10 ≤ lat ∧ lat ≤ 20 ∧ 140 ≤ lng ∧ lng ≤ 150 then 10500 + r * 500
    else if -25 ≤ lat ∧ lat ≤ -15 ∧ -175 ≤ lng ∧ lng ≤ -170 then 9500 + r * 500
    else if -35 ≤ lat ∧ lat ≤ -25 ∧ 175 ≤ lng ∧ lng ≤ 180 then 9000 + r * 500
    else 4000 + r * 2000
  else if -60 ≤ lat ∧ lat ≤ 60 ∧ -80 ≤ lng ∧ lng ≤ 20 then
    if 15 ≤ lat ∧ lat ≤ 25 ∧ -70 ≤ lng ∧ lng ≤ -60 then 8500 + r * 300
    else if -60 ≤ lat ∧ lat ≤ -50 ∧ -30 ≤ lng ∧ lng ≤ -20 then 8000 + r * 500
    else 3500 + r * 1500
  else if -60 ≤ lat ∧ lat ≤ 30 ∧ 20 ≤ lng ∧ lng ≤ 120 then
    if -10 ≤ lat ∧ lat ≤ 5 ∧ 100 ≤ lng ∧ lng ≤ 115 then 7500 + r * 500
    else if -35 ≤ lat ∧ lat ≤ -25 ∧ 100 ≤ lng ∧ lng ≤ 115 then 7000 + r * 300
    else 3800 + r * 1700
  else if 70 ≤ lat then
    if 0 ≤ lng ∧ lng ≤ 180 then 4000 + r * 1000
    else if -180 ≤ lng ∧ lng ≤ 0 then 3500 + r * 1000
    else 1000 + r * 1000
  else if 30 ≤ lat ∧ lat ≤ 45 ∧ -10 ≤ lng ∧ lng ≤ 40 then 1500 + r * 1000
  else if 10 ≤ lat ∧ lat ≤ 25 ∧ -90 ≤ lng ∧ lng ≤ -60 then 2000 + r * 1000
  else 500 + r * 1000

/-- `getCoastalElevation` (MapManager.js lines 667-755), with `r ∈ [0,1)`
the single `Math.random()` draw of the invocation.  The source's nested
regional guards fall through to the next outer region when no inner guard
matches, which the nested conditionals below reproduce. -/
noncomputable def getCoastalElevation (lat lng r : ℝ) : ℝ :=
  if 25 ≤ lat ∧ lat ≤ 50 ∧ -125 ≤ lng ∧ lng ≤ -65 ∧
      (-125 ≤ lng ∧ lng ≤ -115) then 500 + r * 1500
  else if 25 ≤ lat ∧ lat ≤ 50 ∧ -125 ≤ lng ∧ lng ≤ -65 ∧
      (-80 ≤ lng ∧ lng ≤ -65) then 50 + r * 200
  else if 25 ≤ lat ∧ lat ≤ 50 ∧ -125 ≤ lng ∧ lng ≤ -65 ∧
      (25 ≤ lat ∧ lat ≤ 35 ∧ -100 ≤ lng ∧ lng ≤ -80) then 10 + r * 50
  else if 35 ≤ lat ∧ lat ≤ 70 ∧ -25 ≤ lng ∧ lng ≤ 40 ∧
      (35 ≤ lat ∧ lat ≤ 45 ∧ -10 ≤ lng ∧ lng ≤ 40) then 200 + r * 800
  else if 35 ≤ lat ∧ lat ≤ 70 ∧ -25 ≤ lng ∧ lng ≤ 40 ∧
      (35 ≤ lat ∧ lat ≤ 50 ∧ -10 ≤ lng ∧ lng ≤ 5) then 100 + r * 400
  else if 35 ≤ lat ∧ lat ≤ 70 ∧ -25 ≤ lng ∧ lng ≤ 40 ∧
      (50 ≤ lat ∧ lat ≤ 60 ∧ -5 ≤ lng ∧ lng ≤ 10) then 20 + r * 80
  else if 15 ≤ lat ∧ lat ≤ 75 ∧ 45 ≤ lng ∧ lng ≤ 180 ∧
      (30 ≤ lat ∧ lat ≤ 45 ∧ 130 ≤ lng ∧ lng ≤ 145) then 300 + r * 700
  else if 15 ≤ lat ∧ lat ≤ 75 ∧ 45 ≤ lng ∧ lng ≤ 180 ∧
      (20 ≤ lat ∧ lat ≤ 40 ∧ 110 ≤ lng ∧ lng ≤ 125) then 100 + r * 300
  else if 15 ≤ lat ∧ lat ≤ 75 ∧ 45 ≤ lng ∧ lng ≤ 180 ∧
      (8 ≤ lat ∧ lat ≤ 25 ∧ 70 ≤ lng ∧ lng ≤ 85) then 50 + r * 200
  else if -50 ≤ lat ∧ lat ≤ -10 ∧ 110 ≤ lng ∧ lng ≤ 180 ∧
      (150 ≤ lng ∧ lng ≤ 155) then 400 + r * 800
  else if -50 ≤ lat ∧ lat ≤ -10 ∧ 110 ≤ lng ∧ lng ≤ 180 ∧
      (110 ≤ lng ∧ lng ≤ 120) then 100 + r * 300
  else if -60 ≤ lat ∧ lat ≤ 15 ∧ -90 ≤ lng ∧ lng ≤ -30 ∧
      (-85 ≤ lng ∧ lng ≤ -70) then 1000 + r * 2000
  else if -60 ≤ lat ∧ lat ≤ 15 ∧ -90 ≤ lng ∧ lng ≤ -30 ∧
      (-50 ≤ lng ∧ lng ≤ -30) then 50 + r * 200
  else if -35 ≤ lat ∧ lat ≤ 40 ∧ -20 ≤ lng ∧ lng ≤ 55 ∧
      (30 ≤ lat ∧ lat ≤ 40 ∧ -10 ≤ lng ∧ lng ≤ 10) then 800 + r * 1200
  else if -35 ≤ lat ∧ lat ≤ 40 ∧ -20 ≤ lng ∧ lng ≤ 55 ∧
      (-35 ≤ lat ∧ lat ≤ -25 ∧ 15 ≤ lng ∧ lng ≤ 35) then 200 + r * 600
  else 50 + r * 150

/-- `getDistanceFromCoast` (MapManager.js lines 557-563). -/
noncomputable def getDistanceFromCoast (lat : ℝ) : ℤ :=
  round (|lat - 40.5| * 111)

/-- The impact-data record `calculateImpactData` builds (MapManager.js
lines 444-463).  `estimatedCasualties` is attached afterwards (line 466)
from the out-of-scope location lookup and is not part of this record. -/
structure MapImpactData where
  asteroidSize : ℝ
  asteroidVelocity : ℝ
  impactAngle : ℝ
  composition : String
  mass : ℝ
  kineticEnergy : ℝ
  explosiveYield : ℝ
  craterDiameter : ℝ
  fireballRadius : ℝ
  blastRadius : ℝ
  seismicMagnitude : ℝ
  tsunamiHeight : ℝ
  distanceFromCoast : ℤ
  isContinental : Bool
  oceanDepth : ℝ
  coastalElevation : ℝ
  terrainType : String

/-- `calculateImpactData` (MapManager.js lines 394-463): this duplicate of
the pipeline divides by 4.184×10¹⁵ (megatons), uses metre-valued effect
radii without floors, a different seismic formula, and consumes one
`Math.random()` draw `r` through `getOceanDepth` / `getCoastalElevation`. -/
noncomputable def calculateImpactData (asteroidSize asteroidVelocity : ℝ)
    (composition : String) (lat lng r : ℝ) : MapImpactData :=
  let density := getAsteroidDensity composition
  let radius := asteroidSize / 2
  let volume := (4 / 3) * Real.pi * radius ^ (3 : ℕ)
  let mass := volume * density
  let kineticEnergy := 0.5 * mass * (asteroidVelocity * 1000) ^ (2 : ℕ)
  let explosiveYield := kineticEnergy / (4.184 * 10 ^ (15 : ℕ))
  let craterDiameter := explosiveYield ^ (0.294 : ℝ) * 195
  let fireballRadius := explosiveYield ^ (0.4 : ℝ) * 1000
  let blastRadius := explosiveYield ^ (0.33 : ℝ) * 1000
  let seismicMagnitude := 0.67 * Real.logb 10 (explosiveYield * 1000000) + 5.87
  let continental := isContinental lat lng
  let tsunamiHeight :=
    if !continental ∧ 0.1 < explosiveYield then
      explosiveYield ^ (0.5 : ℝ) * 100
    else 0
  { asteroidSize := asteroidSize
    asteroidVelocity := asteroidVelocity
    impactAngle := 90
    composition := composition
    mass := mass
    kineticEnergy := kineticEnergy
    explosiveYield := explosiveYield
    craterDiameter := craterDiameter
    fireballRadius := fireballRadius
    blastRadius := blastRadius
    seismicMagnitude := seismicMagnitude
    tsunamiHeight := tsunamiHeight
    distanceFromCoast := getDistanceFromCoast lat
    isContinental := continental
    oceanDepth := if continental then 0 else getOceanDepth lat lng r
    coastalElevation := if continental then getCoastalElevation lat lng r else 0
    terrainType := if continental then "Continental" else "Oceanic" }

end MapManager

/-- The specification's tsunami-height formula, written with `clamp` and
`sqrt` exactly as in §4.4 of the spec:
`clamp(2.0 * (yieldKt*energyTransfer)^0.25 / sqrt(max(depth_m,100)/1000), 0, 100)`
with `yieldKt = yieldTons/1000` and `energyTransfer = 0.1`. -/
noncomputable def specTsunamiHeight (yieldTons depthM : ℝ) : ℝ :=
  min (max (2.0 * (yieldTons / 1000 * 0.1) ^ (0.25 : ℝ) /
    Real.sqrt (max depthM 100 / 1000)) 0) 100

/-- C2: for every validated input (diameter > 0, velocity > 0, composition
resolving to density ρ), the physical-effects computation returns exactly
the documented formulas — mass, kinetic energy, TNT yield, and the four
effect fields with their `max` floors — and no radius or magnitude field
is below its documented floor. -/
theorem claim_c2_effect_formulas (diameter velocity : ℝ) (composition : String)
    (hd : 0 < diameter) (hv : 0 < velocity) :
    (SimulationManager.computeImpactData diameter velocity composition).mass =
        (4 / 3) * Real.pi * (diameter / 2) ^ (3 : ℕ) *
          SimulationManager.getAsteroidDensity composition ∧
    (SimulationManager.computeImpactData diameter velocity composition).kineticEnergy =
        0.5 * (SimulationManager.computeImpactData diameter velocity composition).mass *
          (velocity * 1000) ^ (2 : ℕ) ∧
    (SimulationManager.computeImpactData diameter velocity composition).explosiveYield =
        (SimulationManager.computeImpactData diameter velocity composition).kineticEnergy /
          (4.184 * 10 ^ (9 : ℕ)) ∧
    (SimulationManager.computeImpactData diameter velocity composition).craterDiameter =
        max (1.16 * (SimulationManager.computeImpactData diameter velocity
          composition).explosiveYield ^ (0.294 : ℝ)) 0.1 ∧
    (SimulationManager.computeImpactData diameter velocity composition).fireballRadius =
        max (0.28 * (SimulationManager.computeImpactData diameter velocity
          composition).explosiveYield ^ (0.4 : ℝ)) 0.05 ∧
    (SimulationManager.computeImpactData diameter velocity composition).blastRadius =
        max (0.45 * (SimulationManager.computeImpactData diameter velocity
          composition).explosiveYield ^ (0.33 : ℝ)) 0.1 ∧
    (SimulationManager.computeImpactData diameter velocity composition).seismicMagnitude =
        max (0.67 * Real.logb 10 ((SimulationManager.computeImpactData diameter velocity
          composition).explosiveYield) + 4.0) 1.0 ∧
    0.1 ≤ (SimulationManager.computeImpactData diameter velocity composition).craterDiameter ∧
    0.05 ≤ (SimulationManager.computeImpactData diameter velocity composition).fireballRadius ∧
    0.1 ≤ (SimulationManager.computeImpactData diameter velocity composition).blastRadius ∧
    1.0 ≤ (SimulationManager.computeImpactData diameter velocity composition).seismicMagnitude :=
  ⟨rfl, rfl, rfl, rfl, rfl, rfl, rfl, le_max_right _ _, le_max_right _ _,
    le_max_right _ _, le_max_right _ _⟩

/-- Witness for C2 at the smallest-slider scenario diameter 10 m,
velocity 5 km/s, rocky composition. -/
theorem claim_c2_effect_formulas_witness :
    (0 : ℝ) < 10 ∧ (0 : ℝ) < 5 ∧
    ((SimulationManager.computeImpactData 10 5 "rocky").mass =
        (4 / 3) * Real.pi * ((10 : ℝ) / 2) ^ (3 : ℕ) *
          SimulationManager.getAsteroidDensity "rocky" ∧
      (SimulationManager.computeImpactData 10 5 "rocky").kineticEnergy =
        0.5 * (SimulationManager.computeImpactData 10 5 "rocky").mass *
          ((5 : ℝ) * 1000) ^ (2 : ℕ) ∧
      (SimulationManager.computeImpactData 10 5 "rocky").explosiveYield =
        (SimulationManager.computeImpactData 10 5 "rocky").kineticEnergy /
          (4.184 * 10 ^ (9 : ℕ)) ∧
      (SimulationManager.computeImpactData 10 5 "rocky").craterDiameter =
        max (1.16 * (SimulationManager.computeImpactData 10 5
          "rocky").explosiveYield ^ (0.294 : ℝ)) 0.1 ∧
      (SimulationManager.computeImpactData 10 5 "rocky").fireballRadius =
        max (0.28 * (SimulationManager.computeImpactData 10 5
          "rocky").explosiveYield ^ (0.4 : ℝ)) 0.05 ∧
      (SimulationManager.computeImpactData 10 5 "rocky").blastRadius =
        max (0.45 * (SimulationManager.computeImpactData 10 5
          "rocky").explosiveYield ^ (0.33 : ℝ)) 0.1 ∧
      (SimulationManager.computeImpactData 10 5 "rocky").seismicMagnitude =
        max (0.67 * Real.logb 10 ((SimulationManager.computeImpactData 10 5
          "rocky").explosiveYield) + 4.0) 1.0 ∧
      0.1 ≤ (SimulationManager.computeImpactData 10 5 "rocky").craterDiameter ∧
      0.05 ≤ (SimulationManager.computeImpactData 10 5 "rocky").fireballRadius ∧
      0.1 ≤ (SimulationManager.computeImpactData 10 5 "rocky").blastRadius ∧
      1.0 ≤ (SimulationManager.computeImpactData 10 5 "rocky").seismicMagnitude) :=
  ⟨by norm_num, by norm_num,
    claim_c2_effect_formulas 10 5 "rocky" (by norm_num) (by norm_num)⟩

/-- C6: for every yield and every location inside one of the landmass
bounding boxes (continental), the tsunami computation returns the zero
record (height 0, risk "None", affected distance 0, warning time 0), and a
strictly positive tsunami height is possible only for oceanic locations. -/
theorem claim_c6_continental_tsunami_zero (explosiveYield latitude longitude : ℝ) :
    (SimulationManager.isOceanLocation latitude longitude = false →
      SimulationManager.calculateTsunamiEffects explosiveYield latitude longitude =
        { tsunamiHeight := 0, tsunamiRisk := "None",
          affectedDistance := 0, warningTime := 0 }) ∧
    (0 < (SimulationManager.calculateTsunamiEffects explosiveYield latitude
        longitude).tsunamiHeight →
      SimulationManager.isOceanLocation latitude longitude = true) := by
  constructor
  · intro h
    simp [SimulationManager.calculateTsunamiEffects, h]
  · intro h
    by_cases hoc : SimulationManager.isOceanLocation latitude longitude = true
    · exact hoc
    · rw [Bool.not_eq_true] at hoc
      simp [SimulationManager.calculateTsunamiEffects, hoc] at h

/-- Witness for C6 at the New York default impact point, which lies inside
the North America bounding box. -/
theorem claim_c6_continental_tsunami_zero_witness :
    SimulationManager.isOceanLocation 40.7128 (-74.0060) = false ∧
    SimulationManager.calculateTsunamiEffects 1000 40.7128 (-74.0060) =
      { tsunamiHeight := 0, tsunamiRisk := "None",
        affectedDistance := 0, warningTime := 0 } := by
  have hco : SimulationManager.isOceanLocation 40.7128 (-74.0060) = false := by
    norm_num [SimulationManager.isOceanLocation, SimulationManager.landRegions,
      SimulationManager.inLandRegion]
  exact ⟨hco, (claim_c6_continental_tsunami_zero 1000 40.7128 (-74.0060)).1 hco⟩

/-- C7: for every nonnegative blast radius (with the source's population
density, the constant 50 people/km²), the casualty estimate satisfies
`estimated = round(π·r²·50·min(0.9, r/100))`, `injured = round(0.3·estimated)`,
`fatalities = round(0.7·estimated)`, and `injured + fatalities` equals
`estimated` to within ±1. -/
theorem claim_c7_casualty_consistency (explosiveYield blastRadius : ℝ)
    (h : 0 ≤ blastRadius) :
    (SimulationManager.calculateCasualties explosiveYield blastRadius).estimated =
      round (Real.pi * blastRadius ^ (2 : ℕ) * 50 * min 0.9 (blastRadius / 100)) ∧
    (SimulationManager.calculateCasualties explosiveYield blastRadius).injured =
      round (((SimulationManager.calculateCasualties explosiveYield
        blastRadius).estimated : ℝ) * 0.3) ∧
    (SimulationManager.calculateCasualties explosiveYield blastRadius).fatalities =
      round (((SimulationManager.calculateCasualties explosiveYield
        blastRadius).estimated : ℝ) * 0.7) ∧
    |(SimulationManager.calculateCasualties explosiveYield blastRadius).injured +
        (SimulationManager.calculateCasualties explosiveYield blastRadius).fatalities -
        (SimulationManager.calculateCasualties explosiveYield blastRadius).estimated|
      ≤ 1 := by
  refine ⟨?_, rfl, rfl, ?_⟩
  · rcases eq_or_lt_of_le h with h0 | h0
    · simp [SimulationManager.calculateCasualties, ← h0]
    · simp [SimulationManager.calculateCasualties, h0]
  · set e : ℤ := (SimulationManager.calculateCasualties explosiveYield
      blastRadius).estimated with he
    have hinj : (SimulationManager.calculateCasualties explosiveYield
        blastRadius).injured = round ((e : ℝ) * 0.3) := rfl
    have hfat : (SimulationManager.calculateCasualties explosiveYield
        blastRadius).fatalities = round ((e : ℝ) * 0.7) := rfl
    rw [hinj, hfat]
    have h1 : |((e : ℝ) * 0.3 - round ((e : ℝ) * 0.3))| ≤ 1 / 2 :=
      abs_sub_round ((e : ℝ) * 0.3)
    have h2 : |((e : ℝ) * 0.7 - round ((e : ℝ) * 0.7))| ≤ 1 / 2 :=
      abs_sub_round ((e : ℝ) * 0.7)
    have h1a := abs_le.mp h1
    have h2a := abs_le.mp h2
    have : |((round ((e : ℝ) * 0.3) + round ((e : ℝ) * 0.7) - e : ℤ) : ℝ)| ≤ 1 := by
      push_cast
      rw [abs_le]
      constructor <;> nlinarith [h1a.1, h1a.2, h2a.1, h2a.2]
    exact_mod_cast this

/-- Witness for C7 at blast radius 2 km. -/
theorem claim_c7_casualty_consistency_witness :
    (0 : ℝ) ≤ 2 ∧
    ((SimulationManager.calculateCasualties 1 2).estimated =
        round (Real.pi * (2 : ℝ) ^ (2 : ℕ) * 50 * min 0.9 ((2 : ℝ) / 100)) ∧
      (SimulationManager.calculateCasualties 1 2).injured =
        round (((SimulationManager.calculateCasualties 1 2).estimated : ℝ) * 0.3) ∧
      (SimulationManager.calculateCasualties 1 2).fatalities =
        round (((SimulationManager.calculateCasualties 1 2).estimated : ℝ) * 0.7) ∧
      |(SimulationManager.calculateCasualties 1 2).injured +
          (SimulationManager.calculateCasualties 1 2).fatalities -
          (SimulationManager.calculateCasualties 1 2).estimated| ≤ 1) :=
  ⟨by norm_num, claim_c7_casualty_consistency 1 2 (by norm_num)⟩

/-- C8: severity classification is `low` below 0.1 tons, `moderate` on
[0.1, 1), `high` on [1, 10), `severe` on [10, 100) and `catastrophic` from
100 tons up; the boundaries are half-open on the upper side (exactly 1.0
ton is `high`), and severity rank is monotone non-decreasing in yield. -/
theorem claim_c8_severity_bands (y y1 y2 : ℝ) (h : y1 ≤ y2) :
    (y < 0.1 → SimulationManager.getSeverityClass y = .low) ∧
    (0.1 ≤ y → y < 1 → SimulationManager.getSeverityClass y = .moderate) ∧
    (1 ≤ y → y < 10 → SimulationManager.getSeverityClass y = .high) ∧
    (10 ≤ y → y < 100 → SimulationManager.getSeverityClass y = .severe) ∧
    (100 ≤ y → SimulationManager.getSeverityClass y = .catastrophic) ∧
    SimulationManager.getSeverityClass 1 = .high ∧
    (SimulationManager.getSeverityClass y1).rank ≤
      (SimulationManager.getSeverityClass y2).rank := by
  refine ⟨?_, ?_, ?_, ?_, ?_, ?_, ?_⟩
  · intro h1
    unfold SimulationManager.getSeverityClass
    split_ifs <;> first | rfl | linarith
  · intro h1 h2
    unfold SimulationManager.getSeverityClass
    split_ifs <;> first | rfl | linarith
  · intro h1 h2
    unfold SimulationManager.getSeverityClass
    split_ifs <;> first | rfl | linarith
  · intro h1 h2
    unfold SimulationManager.getSeverityClass
    split_ifs <;> first | rfl | linarith
  · intro h1
    unfold SimulationManager.getSeverityClass
    split_ifs <;> first | rfl | linarith
  · norm_num [SimulationManager.getSeverityClass]
  · unfold SimulationManager.getSeverityClass
    split_ifs <;> simp [SimulationManager.Severity.rank] <;> linarith

/-- Witness for C8 at y = 0.05, y1 = 1, y2 = 50. -/
theorem claim_c8_severity_bands_witness :
    (1 : ℝ) ≤ 50 ∧
    (((0.05 : ℝ) < 0.1 → SimulationManager.getSeverityClass 0.05 = .low) ∧
      ((0.1 : ℝ) ≤ 0.05 → (0.05 : ℝ) < 1 →
        SimulationManager.getSeverityClass 0.05 = .moderate) ∧
      ((1 : ℝ) ≤ 0.05 → (0.05 : ℝ) < 10 →
        SimulationManager.getSeverityClass 0.05 = .high) ∧
      ((10 : ℝ) ≤ 0.05 → (0.05 : ℝ) < 100 →
        SimulationManager.getSeverityClass 0.05 = .severe) ∧
      ((100 : ℝ) ≤ 0.05 → SimulationManager.getSeverityClass 0.05 = .catastrophic) ∧
      SimulationManager.getSeverityClass 1 = .high ∧
      (SimulationManager.getSeverityClass 1).rank ≤
        (SimulationManager.getSeverityClass 50).rank) :=
  ⟨by norm_num, claim_c8_severity_bands 0.05 1 50 (by norm_num)⟩

/-- C9: for every yield and water depth, the tsunami height computed by the
code equals the specification's clamped formula (so it never exceeds
100 m), the affected distance equals `min(200·(y/1000)^0.4, 2000)` (never
above 2000 km), and the warning time equals
`max(distanceFromCoast/720, 0.1)` (never below 0.1 h). -/
theorem claim_c9_tsunami_model (y d latitude longitude dist : ℝ) :
    SimulationManager.calculateTsunamiHeight y d = specTsunamiHeight y d ∧
    SimulationManager.calculateTsunamiHeight y d ≤ 100 ∧
    SimulationManager.calculateTsunamiAffectedDistance y =
      min (200 * (y / 1000) ^ (0.4 : ℝ)) 2000 ∧
    SimulationManager.calculateTsunamiAffectedDistance y ≤ 2000 ∧
    SimulationManager.calculateTsunamiWarningTime latitude longitude dist =
      max (SimulationManager.calculateDistanceFromCoast latitude longitude / 720)
        0.1 ∧
    0.1 ≤ SimulationManager.calculateTsunamiWarningTime latitude longitude dist := by
  refine ⟨?_, min_le_right _ _, rfl, min_le_right _ _, rfl, le_max_right _ _⟩
  unfold SimulationManager.calculateTsunamiHeight specTsunamiHeight
  rw [Real.sqrt_eq_rpow]
  norm_num

/-- C3: `calculateResults` evaluates the tsunami step with the free
identifiers `latitude` and `longitude`, which are bound neither in the
function's scope nor globally (the impact point lives only in
`this.parameters`), so every invocation faults with a `ReferenceError` at
the tsunami-effects call and never returns a results record. -/
theorem claim_c3_unbound_latitude (inputs : SimulationManager.RawInputs) :
    SimulationManager.readGlobal "latitude" = none ∧
    SimulationManager.calculateResults inputs =
      .error (SimulationManager.JsError.referenceError "latitude") ∧
    ∀ results, SimulationManager.calculateResults inputs ≠ .ok results := by
  refine ⟨rfl, rfl, ?_⟩
  intro results h
  rw [show SimulationManager.calculateResults inputs =
    .error (SimulationManager.JsError.referenceError "latitude") from rfl] at h
  exact Except.noConfusion h

/-- A concrete invocation for C4's counterexample: the diameter field holds
the out-of-range value 0 (and the velocity field 0 and the angle field
−1). -/
noncomputable def outOfRangeInputs : SimulationManager.RawInputs :=
  { asteroidSizeField := some 0
    asteroidVelocityField := some 0
    impactAngleField := some (-1)
    compositionField := "rocky"
    strategyField := "none"
    actionTimeField := some 12 }

/-- Counterexample to C4: with diameter = 0 (and velocity = 0, angle = −1)
the engine does not reject with a `ValidationError`; the `|| default`
fallback silently replaces the falsy 0 fields with the defaults 100 and
15, and the invocation fails with the unrelated `ReferenceError` of the
tsunami step, the same outcome as for perfectly valid inputs. -/
theorem claim_c4_counterexample :
    SimulationManager.isValidationError
        (SimulationManager.calculateResults outOfRangeInputs) = false ∧
    SimulationManager.calculateResults outOfRangeInputs =
      .error (SimulationManager.JsError.referenceError "latitude") ∧
    SimulationManager.numberOrDefault (some 0) 100 = 100 ∧
    SimulationManager.numberOrDefault (some 0) 15 = 15 := by
  refine ⟨rfl, rfl, ?_, ?_⟩ <;> norm_num [SimulationManager.numberOrDefault]

/-- C4 as amended: the engine performs no range validation at all.  No
invocation ever rejects with a `ValidationError`; the falsy out-of-range
values diameter = 0 and velocity = 0 are silently replaced by the defaults
100 and 15, the out-of-range angles −1 and 91 are accepted unchanged, and
every invocation (valid or not) instead fails with the `ReferenceError` of
the unbound tsunami-step identifiers. -/
theorem claim_c4_amended :
    (∀ inputs, SimulationManager.isValidationError
      (SimulationManager.calculateResults inputs) = false) ∧
    SimulationManager.numberOrDefault (some 0) 100 = 100 ∧
    SimulationManager.numberOrDefault (some 0) 15 = 15 ∧
    SimulationManager.numberOrDefault (some (-1)) 45 = -1 ∧
    SimulationManager.numberOrDefault (some 91) 45 = 91 ∧
    (∀ inputs, SimulationManager.calculateResults inputs =
      .error (SimulationManager.JsError.referenceError "latitude")) := by
  refine ⟨fun _ => rfl, ?_, ?_, ?_, ?_, fun _ => rfl⟩ <;>
    norm_num [SimulationManager.numberOrDefault]

/-- Every entry of the density table (and the fallback) is positive. -/
lemma getAsteroidDensity_pos (composition : String) :
    0 < SimulationManager.getAsteroidDensity composition := by
  unfold SimulationManager.getAsteroidDensity
  split_ifs <;> norm_num

/-- Closed form of the TNT-equivalent yield of the
`SimulationManager.calculateResults` pipeline:
`0.5·((4/3)π(d/2)³ρ)·(1000v)² / (4.184×10⁹) = πρd³v²/50208`. -/
lemma explosiveYield_closed_form (d v : ℝ) (composition : String) :
    (SimulationManager.computeImpactData d v composition).explosiveYield =
      Real.pi * SimulationManager.getAsteroidDensity composition *
        d ^ (3 : ℕ) * v ^ (2 : ℕ) / 50208 := by
  show 0.5 * ((4 / 3) * Real.pi * (d / 2) ^ (3 : ℕ) *
      SimulationManager.getAsteroidDensity composition) *
      (v * 1000) ^ (2 : ℕ) / (4.184 * 10 ^ (9 : ℕ)) = _
  field_simp
  ring

/-- The yield is positive for positive diameter and velocity. -/
lemma explosiveYield_pos (d v : ℝ) (composition : String)
    (hd : 0 < d) (hv : 0 < v) :
    0 < (SimulationManager.computeImpactData d v composition).explosiveYield := by
  rw [explosiveYield_closed_form]
  have hρ := getAsteroidDensity_pos composition
  have hπ := Real.pi_pos
  positivity

/-- C5: for fixed velocity and composition, yield, crater diameter,
fireball radius, blast radius and seismic magnitude are all monotone
non-decreasing in the diameter; and the yield is also monotone
non-decreasing in the velocity for fixed diameter. -/
theorem claim_c5_monotonicity (composition : String) (v d1 d2 d v1 v2 : ℝ)
    (hd1 : 0 < d1) (hd : d1 ≤ d2) (hv : 0 < v)
    (hdp : 0 < d) (hv1 : 0 < v1) (hv12 : v1 ≤ v2) :
    (SimulationManager.computeImpactData d1 v composition).explosiveYield ≤
      (SimulationManager.computeImpactData d2 v composition).explosiveYield ∧
    (SimulationManager.computeImpactData d1 v composition).craterDiameter ≤
      (SimulationManager.computeImpactData d2 v composition).craterDiameter ∧
    (SimulationManager.computeImpactData d1 v composition).fireballRadius ≤
      (SimulationManager.computeImpactData d2 v composition).fireballRadius ∧
    (SimulationManager.computeImpactData d1 v composition).blastRadius ≤
      (SimulationManager.computeImpactData d2 v composition).blastRadius ∧
    (SimulationManager.computeImpactData d1 v composition).seismicMagnitude ≤
      (SimulationManager.computeImpactData d2 v composition).seismicMagnitude ∧
    (SimulationManager.computeImpactData d v1 composition).explosiveYield ≤
      (SimulationManager.computeImpactData d v2 composition).explosiveYield := by
  have hρ := getAsteroidDensity_pos composition
  have hπ := Real.pi_pos
  have hy1 : 0 < (SimulationManager.computeImpactData d1 v
      composition).explosiveYield := explosiveYield_pos d1 v composition hd1 hv
  have hyy : (SimulationManager.computeImpactData d1 v
      composition).explosiveYield ≤
      (SimulationManager.computeImpactData d2 v composition).explosiveYield := by
    rw [explosiveYield_closed_form, explosiveYield_closed_form]
    gcongr
  refine ⟨hyy, ?_, ?_, ?_, ?_, ?_⟩
  · show max (1.16 * _ ^ (0.294 : ℝ)) 0.1 ≤ max (1.16 * _ ^ (0.294 : ℝ)) 0.1
    refine max_le_max (mul_le_mul_of_nonneg_left ?_ (by norm_num)) le_rfl
    exact Real.rpow_le_rpow hy1.le hyy (by norm_num)
  · show max (0.28 * _ ^ (0.4 : ℝ)) 0.05 ≤ max (0.28 * _ ^ (0.4 : ℝ)) 0.05
    refine max_le_max (mul_le_mul_of_nonneg_left ?_ (by norm_num)) le_rfl
    exact Real.rpow_le_rpow hy1.le hyy (by norm_num)
  · show max (0.45 * _ ^ (0.33 : ℝ)) 0.1 ≤ max (0.45 * _ ^ (0.33 : ℝ)) 0.1
    refine max_le_max (mul_le_mul_of_nonneg_left ?_ (by norm_num)) le_rfl
    exact Real.rpow_le_rpow hy1.le hyy (by norm_num)
  · show max (0.67 * Real.logb 10 _ + 4.0) 1.0 ≤
      max (0.67 * Real.logb 10 _ + 4.0) 1.0
    refine max_le_max (add_le_add_right
      (mul_le_mul_of_nonneg_left ?_ (by norm_num)) 4.0) le_rfl
    exact Real.logb_le_logb_of_le (by norm_num) hy1 hyy
  · rw [explosiveYield_closed_form, explosiveYield_closed_form]
    gcongr

/-- Witness for C5 at diameters 10 ≤ 20, velocity 5, velocities 5 ≤ 6,
diameter 10, rocky composition. -/
theorem claim_c5_monotonicity_witness :
    (0 : ℝ) < 10 ∧ (10 : ℝ) ≤ 20 ∧ (0 : ℝ) < 5 ∧ (5 : ℝ) ≤ 6 ∧
    ((SimulationManager.computeImpactData 10 5 "rocky").explosiveYield ≤
        (SimulationManager.computeImpactData 20 5 "rocky").explosiveYield ∧
      (SimulationManager.computeImpactData 10 5 "rocky").craterDiameter ≤
        (SimulationManager.computeImpactData 20 5 "rocky").craterDiameter ∧
      (SimulationManager.computeImpactData 10 5 "rocky").fireballRadius ≤
        (SimulationManager.computeImpactData 20 5 "rocky").fireballRadius ∧
      (SimulationManager.computeImpactData 10 5 "rocky").blastRadius ≤
        (SimulationManager.computeImpactData 20 5 "rocky").blastRadius ∧
      (SimulationManager.computeImpactData 10 5 "rocky").seismicMagnitude ≤
        (SimulationManager.computeImpactData 20 5 "rocky").seismicMagnitude ∧
      (SimulationManager.computeImpactData 10 5 "rocky").explosiveYield ≤
        (SimulationManager.computeImpactData 10 6 "rocky").explosiveYield) :=
  ⟨by norm_num, by norm_num, by norm_num, by norm_num,
    claim_c5_monotonicity "rocky" 5 10 20 10 5 6 (by norm_num) (by norm_num)
      (by norm_num) (by norm_num) (by norm_num) (by norm_num)⟩

/-- Counterexample to C10: at the oceanic Atlantic point (0, −25) with the
default parameters, two invocations of the impact computation that see
different `Math.random()` draws (0 and 1/2) return different
`ImpactAssessment` records — the consumed ocean-depth estimate is
3500 m in one run and 4250 m in the other. -/
theorem claim_c10_counterexample :
    MapManager.calculateImpactData 100 15 "rocky" 0 (-25) 0 ≠
      MapManager.calculateImpactData 100 15 "rocky" 0 (-25) (1 / 2) := by
  have hcont : MapManager.isContinental 0 (-25) = false := by
    norm_num [MapManager.isContinental]
  have h1 : (MapManager.calculateImpactData 100 15 "rocky" 0 (-25) 0).oceanDepth =
      3500 := by
    show (if MapManager.isContinental 0 (-25) then (0 : ℝ)
      else MapManager.getOceanDepth 0 (-25) 0) = 3500
    rw [hcont]
    norm_num [MapManager.getOceanDepth]
  have h2 : (MapManager.calculateImpactData 100 15 "rocky" 0 (-25)
      (1 / 2)).oceanDepth = 4250 := by
    show (if MapManager.isContinental 0 (-25) then (0 : ℝ)
      else MapManager.getOceanDepth 0 (-25) (1 / 2)) = 4250
    rw [hcont]
    norm_num [MapManager.getOceanDepth]
  intro h
  rw [h, h2] at h1
  norm_num at h1

/-- C10 as amended: with the single `Math.random()` draw of an invocation
made explicit, two runs on identical parameters and location agree on
every field of the impact record except the pseudo-random ocean-depth and
coastal-elevation estimates, which are the only consumers of the draw;
full bit-identical determinism would require removing that jitter, as §9
of the specification prescribes. -/
theorem claim_c10_amended (asteroidSize asteroidVelocity : ℝ)
    (composition : String) (lat lng r1 r2 : ℝ) :
    (MapManager.calculateImpactData asteroidSize asteroidVelocity composition
        lat lng r1).mass =
      (MapManager.calculateImpactData asteroidSize asteroidVelocity composition
        lat lng r2).mass ∧
    (MapManager.calculateImpactData asteroidSize asteroidVelocity composition
        lat lng r1).kineticEnergy =
      (MapManager.calculateImpactData asteroidSize asteroidVelocity composition
        lat lng r2).kineticEnergy ∧
    (MapManager.calculateImpactData asteroidSize asteroidVelocity composition
        lat lng r1).explosiveYield =
      (MapManager.calculateImpactData asteroidSize asteroidVelocity composition
        lat lng r2).explosiveYield ∧
    (MapManager.calculateImpactData asteroidSize asteroidVelocity composition
        lat lng r1).craterDiameter =
      (MapManager.calculateImpactData asteroidSize asteroidVelocity composition
        lat lng r2).craterDiameter ∧
    (MapManager.calculateImpactData asteroidSize asteroidVelocity composition
        lat lng r1).fireballRadius =
      (MapManager.calculateImpactData asteroidSize asteroidVelocity composition
        lat lng r2).fireballRadius ∧
    (MapManager.calculateImpactData asteroidSize asteroidVelocity composition
        lat lng r1).blastRadius =
      (MapManager.calculateImpactData asteroidSize asteroidVelocity composition
        lat lng r2).blastRadius ∧
    (MapManager.calculateImpactData asteroidSize asteroidVelocity composition
        lat lng r1).seismicMagnitude =
      (MapManager.calculateImpactData asteroidSize asteroidVelocity composition
        lat lng r2).seismicMagnitude ∧
    (MapManager.calculateImpactData asteroidSize asteroidVelocity composition
        lat lng r1).tsunamiHeight =
      (MapManager.calculateImpactData asteroidSize asteroidVelocity composition
        lat lng r2).tsunamiHeight ∧
    (MapManager.calculateImpactData asteroidSize asteroidVelocity composition
        lat lng r1).distanceFromCoast =
      (MapManager.calculateImpactData asteroidSize asteroidVelocity composition
        lat lng r2).distanceFromCoast ∧
    (MapManager.calculateImpactData asteroidSize asteroidVelocity composition
        lat lng r1).isContinental =
      (MapManager.calculateImpactData asteroidSize asteroidVelocity composition
        lat lng r2).isContinental ∧
    (MapManager.calculateImpactData asteroidSize asteroidVelocity composition
        lat lng r1).terrainType =
      (MapManager.calculateImpactData asteroidSize asteroidVelocity composition
        lat lng r2).terrainType :=
  ⟨rfl, rfl, rfl, rfl, rfl, rfl, rfl, rfl, rfl, rfl, rfl⟩

/-- `x` is within 1 % of the positive reference value `target`. -/
def closeTo (x target : ℝ) : Prop := |x - target| ≤ target / 100

/-- Raising `x ^ (p/q)` to the `q`-th power recovers `x ^ p`. -/
lemma rpow_ratio_pow (x : ℝ) (hx : 0 ≤ x) (p q : ℕ) (hq : q ≠ 0) :
    (x ^ ((p : ℝ) / (q : ℝ))) ^ q = x ^ p := by
  rw [← Real.rpow_natCast (x ^ ((p : ℝ) / (q : ℝ))) q, ← Real.rpow_mul hx,
    div_mul_cancel₀, Real.rpow_natCast]
  exact_mod_cast hq

/-- Upper-bound a rational-exponent power by comparing integer powers. -/
lemma rpow_ratio_lt_of (x b : ℝ) (p q : ℕ) (hq : q ≠ 0) (hx : 0 ≤ x)
    (hb : 0 ≤ b) (h : x ^ p < b ^ q) : x ^ ((p : ℝ) / (q : ℝ)) < b := by
  apply lt_of_pow_lt_pow_left₀ q hb
  rw [rpow_ratio_pow x hx p q hq]
  exact h

/-- Lower-bound a rational-exponent power by comparing integer powers. -/
lemma lt_rpow_ratio_of (x a : ℝ) (p q : ℕ) (hq : q ≠ 0) (hx : 0 ≤ x)
    (h : a ^ q < x ^ p) : a < x ^ ((p : ℝ) / (q : ℝ)) := by
  apply lt_of_pow_lt_pow_left₀ q (Real.rpow_nonneg hx _)
  rw [rpow_ratio_pow x hx p q hq]
  exact h

/-- At diameter 10 m, velocity 5 km/s, rocky: mass = 500000·π kg. -/
lemma scenario_mass_eq :
    (SimulationManager.computeImpactData 10 5 "rocky").mass =
      500000 * Real.pi := by
  show (4 / 3) * Real.pi * ((10:ℝ) / 2) ^ (3 : ℕ) *
      SimulationManager.getAsteroidDensity "rocky" = _
  norm_num [SimulationManager.getAsteroidDensity]
  ring

/-- At the same scenario: kinetic energy = 6.25×10¹²·π J. -/
lemma scenario_ke_eq :
    (SimulationManager.computeImpactData 10 5 "rocky").kineticEnergy =
      6250000000000 * Real.pi := by
  show 0.5 * ((4 / 3) * Real.pi * ((10:ℝ) / 2) ^ (3 : ℕ) *
      SimulationManager.getAsteroidDensity "rocky") * ((5:ℝ) * 1000) ^ (2 : ℕ) = _
  norm_num [SimulationManager.getAsteroidDensity]
  ring

/-- At the same scenario: yield = (781250/523)·π ≈ 4692.87 tons TNT. -/
lemma scenario_yield_eq :
    (SimulationManager.computeImpactData 10 5 "rocky").explosiveYield =
      781250 / 523 * Real.pi := by
  rw [explosiveYield_closed_form]
  norm_num [SimulationManager.getAsteroidDensity]
  field_simp
  ring

/-- Rational bounds on the scenario yield. -/
lemma scenario_yield_bounds :
    4690 < (SimulationManager.computeImpactData 10 5 "rocky").explosiveYield ∧
      (SimulationManager.computeImpactData 10 5 "rocky").explosiveYield < 4695 := by
  rw [scenario_yield_eq]
  have h1 := Real.pi_gt_d6
  have h2 := Real.pi_lt_d6
  constructor <;> nlinarith

/-- Bounds on the scenario crater diameter: ≈ 13.93 km. -/
lemma scenario_crater_bounds :
    13.9 < (SimulationManager.computeImpactData 10 5 "rocky").craterDiameter ∧
      (SimulationManager.computeImpactData 10 5 "rocky").craterDiameter < 14.1 := by
  obtain ⟨hlo, hhi⟩ := scenario_yield_bounds
  have hy0 : (0:ℝ) ≤
      (SimulationManager.computeImpactData 10 5 "rocky").explosiveYield := by
    linarith
  have hcr : (SimulationManager.computeImpactData 10 5 "rocky").craterDiameter =
      max (1.16 * (SimulationManager.computeImpactData 10 5
        "rocky").explosiveYield ^ (0.294 : ℝ)) 0.1 := rfl
  have hrlo : (12 : ℝ) <
      (SimulationManager.computeImpactData 10 5 "rocky").explosiveYield ^
        (0.294 : ℝ) := by
    rw [show (0.294 : ℝ) = (147 : ℕ) / (500 : ℕ) by norm_num]
    apply lt_rpow_ratio_of _ _ 147 500 (by norm_num) hy0
    calc (12:ℝ) ^ (500:ℕ) < 4690 ^ (147:ℕ) := by norm_num
      _ < (SimulationManager.computeImpactData 10 5
            "rocky").explosiveYield ^ (147:ℕ) :=
          pow_lt_pow_left₀ hlo (by norm_num) (by norm_num)
  have hrhi : (SimulationManager.computeImpactData 10 5
      "rocky").explosiveYield ^ (0.294 : ℝ) < 12.1 := by
    rw [show (0.294 : ℝ) = (147 : ℕ) / (500 : ℕ) by norm_num]
    apply rpow_ratio_lt_of _ _ 147 500 (by norm_num) hy0 (by norm_num)
    calc (SimulationManager.computeImpactData 10 5
          "rocky").explosiveYield ^ (147:ℕ) < 4695 ^ (147:ℕ) :=
        pow_lt_pow_left₀ hhi hy0 (by norm_num)
      _ < (12.1:ℝ) ^ (500:ℕ) := by norm_num
  rw [hcr]
  constructor
  · have h1 : (13.9:ℝ) < 1.16 * (SimulationManager.computeImpactData 10 5
        "rocky").explosiveYield ^ (0.294 : ℝ) := by nlinarith
    exact lt_of_lt_of_le h1 (le_max_left _ _)
  · exact max_lt (by nlinarith) (by norm_num)

/-- Bounds on the scenario fireball radius: ≈ 8.24 km. -/
lemma scenario_fireball_bounds :
    8.2 < (SimulationManager.computeImpactData 10 5 "rocky").fireballRadius ∧
      (SimulationManager.computeImpactData 10 5 "rocky").fireballRadius < 8.3 := by
  obtain ⟨hlo, hhi⟩ := scenario_yield_bounds
  have hy0 : (0:ℝ) ≤
      (SimulationManager.computeImpactData 10 5 "rocky").explosiveYield := by
    linarith
  have hfb : (SimulationManager.computeImpactData 10 5 "rocky").fireballRadius =
      max (0.28 * (SimulationManager.computeImpactData 10 5
        "rocky").explosiveYield ^ (0.4 : ℝ)) 0.05 := rfl
  have hrlo : (29.4 : ℝ) <
      (SimulationManager.computeImpactData 10 5 "rocky").explosiveYield ^
        (0.4 : ℝ) := by
    rw [show (0.4 : ℝ) = (2 : ℕ) / (5 : ℕ) by norm_num]
    apply lt_rpow_ratio_of _ _ 2 5 (by norm_num) hy0
    calc (29.4:ℝ) ^ (5:ℕ) < 4690 ^ (2:ℕ) := by norm_num
      _ < (SimulationManager.computeImpactData 10 5
            "rocky").explosiveYield ^ (2:ℕ) :=
          pow_lt_pow_left₀ hlo (by norm_num) (by norm_num)
  have hrhi : (SimulationManager.computeImpactData 10 5
      "rocky").explosiveYield ^ (0.4 : ℝ) < 29.5 := by
    rw [show (0.4 : ℝ) = (2 : ℕ) / (5 : ℕ) by norm_num]
    apply rpow_ratio_lt_of _ _ 2 5 (by norm_num) hy0 (by norm_num)
    calc (SimulationManager.computeImpactData 10 5
          "rocky").explosiveYield ^ (2:ℕ) < 4695 ^ (2:ℕ) :=
        pow_lt_pow_left₀ hhi hy0 (by norm_num)
      _ < (29.5:ℝ) ^ (5:ℕ) := by norm_num
  rw [hfb]
  constructor
  · have h1 : (8.2:ℝ) < 0.28 * (SimulationManager.computeImpactData 10 5
        "rocky").explosiveYield ^ (0.4 : ℝ) := by nlinarith
    exact lt_of_lt_of_le h1 (le_max_left _ _)
  · exact max_lt (by nlinarith) (by norm_num)

/-- Bounds on the scenario blast radius: ≈ 7.32 km. -/
lemma scenario_blast_bounds :
    7.2 < (SimulationManager.computeImpactData 10 5 "rocky").blastRadius ∧
      (SimulationManager.computeImpactData 10 5 "rocky").blastRadius < 7.4 := by
  obtain ⟨hlo, hhi⟩ := scenario_yield_bounds
  have hy0 : (0:ℝ) ≤
      (SimulationManager.computeImpactData 10 5 "rocky").explosiveYield := by
    linarith
  have hbl : (SimulationManager.computeImpactData 10 5 "rocky").blastRadius =
      max (0.45 * (SimulationManager.computeImpactData 10 5
        "rocky").explosiveYield ^ (0.33 : ℝ)) 0.1 := rfl
  have hrlo : (16.2 : ℝ) <
      (SimulationManager.computeImpactData 10 5 "rocky").explosiveYield ^
        (0.33 : ℝ) := by
    rw [show (0.33 : ℝ) = (33 : ℕ) / (100 : ℕ) by norm_num]
    apply lt_rpow_ratio_of _ _ 33 100 (by norm_num) hy0
    calc (16.2:ℝ) ^ (100:ℕ) < 4690 ^ (33:ℕ) := by norm_num
      _ < (SimulationManager.computeImpactData 10 5
            "rocky").explosiveYield ^ (33:ℕ) :=
          pow_lt_pow_left₀ hlo (by norm_num) (by norm_num)
  have hrhi : (SimulationManager.computeImpactData 10 5
      "rocky").explosiveYield ^ (0.33 : ℝ) < 16.4 := by
    rw [show (0.33 : ℝ) = (33 : ℕ) / (100 : ℕ) by norm_num]
    apply rpow_ratio_lt_of _ _ 33 100 (by norm_num) hy0 (by norm_num)
    calc (SimulationManager.computeImpactData 10 5
          "rocky").explosiveYield ^ (33:ℕ) < 4695 ^ (33:ℕ) :=
        pow_lt_pow_left₀ hhi hy0 (by norm_num)
      _ < (16.4:ℝ) ^ (100:ℕ) := by norm_num
  rw [hbl]
  constructor
  · have h1 : (7.2:ℝ) < 0.45 * (SimulationManager.computeImpactData 10 5
        "rocky").explosiveYield ^ (0.33 : ℝ) := by nlinarith
    exact lt_of_lt_of_le h1 (le_max_left _ _)
  · exact max_lt (by nlinarith) (by norm_num)

/-- Bounds on the scenario base-10 logarithm of the yield. -/
lemma scenario_logb_bounds :
    3.6 < Real.logb 10
        (SimulationManager.computeImpactData 10 5 "rocky").explosiveYield ∧
      Real.logb 10
        (SimulationManager.computeImpactData 10 5 "rocky").explosiveYield < 3.7 := by
  obtain ⟨hlo, hhi⟩ := scenario_yield_bounds
  have hy0 : (0:ℝ) <
      (SimulationManager.computeImpactData 10 5 "rocky").explosiveYield := by
    linarith
  constructor
  · rw [show (3.6:ℝ) = (18 : ℕ) / (5 : ℕ) by norm_num]
    rw [Real.lt_logb_iff_rpow_lt (by norm_num) hy0]
    apply rpow_ratio_lt_of _ _ 18 5 (by norm_num) (by norm_num) (by linarith)
    calc (10:ℝ) ^ (18:ℕ) < 4690 ^ (5:ℕ) := by norm_num
      _ < (SimulationManager.computeImpactData 10 5
            "rocky").explosiveYield ^ (5:ℕ) :=
          pow_lt_pow_left₀ hlo (by norm_num) (by norm_num)
  · rw [show (3.7:ℝ) = (37 : ℕ) / (10 : ℕ) by norm_num]
    rw [Real.logb_lt_iff_lt_rpow (by norm_num) hy0]
    apply lt_rpow_ratio_of _ _ 37 10 (by norm_num) (by norm_num)
    calc (SimulationManager.computeImpactData 10 5
          "rocky").explosiveYield ^ (10:ℕ) < 4695 ^ (10:ℕ) :=
        pow_lt_pow_left₀ hhi hy0.le (by norm_num)
      _ < (10:ℝ) ^ (37:ℕ) := by norm_num

/-- Bounds on the scenario seismic magnitude: ≈ 6.46. -/
lemma scenario_seismic_bounds :
    6.41 < (SimulationManager.computeImpactData 10 5 "rocky").seismicMagnitude ∧
      (SimulationManager.computeImpactData 10 5 "rocky").seismicMagnitude <
        6.48 := by
  obtain ⟨hl, hh⟩ := scenario_logb_bounds
  have hsm : (SimulationManager.computeImpactData 10 5 "rocky").seismicMagnitude =
      max (0.67 * Real.logb 10 (SimulationManager.computeImpactData 10 5
        "rocky").explosiveYield + 4.0) 1.0 := rfl
  rw [hsm]
  constructor
  · have h1 : (6.41:ℝ) < 0.67 * Real.logb 10
        (SimulationManager.computeImpactData 10 5 "rocky").explosiveYield + 4.0 := by
      nlinarith
    exact lt_of_lt_of_le h1 (le_max_left _ _)
  · exact max_lt (by nlinarith) (by norm_num)

/-- The scenario severity is `catastrophic` (yield far above 100 tons). -/
lemma scenario_severity_catastrophic :
    SimulationManager.getSeverityClass
      (SimulationManager.computeImpactData 10 5 "rocky").explosiveYield =
      .catastrophic := by
  obtain ⟨hlo, _⟩ := scenario_yield_bounds
  unfold SimulationManager.getSeverityClass
  split_ifs <;> first | rfl | linarith

/-- Counterexample to C1: at diameter 10 m, velocity 5 km/s, rocky, the
pipeline of `calculateResults` does not produce mass ≈ 1570.8 kg, kinetic
energy ≈ 1.9635×10¹⁰ J, yield ≈ 4.69 tons, or severity `high` — the values
are a factor of 1000 larger (mass = 500000·π ≈ 1.57×10⁶ kg) and the
severity is `catastrophic`. -/
theorem claim_c1_counterexample :
    ¬ closeTo (SimulationManager.computeImpactData 10 5 "rocky").mass 1570.8 ∧
    ¬ closeTo (SimulationManager.computeImpactData 10 5 "rocky").kineticEnergy
      19635000000 ∧
    ¬ closeTo (SimulationManager.computeImpactData 10 5 "rocky").explosiveYield
      4.69 ∧
    SimulationManager.getSeverityClass
        (SimulationManager.computeImpactData 10 5 "rocky").explosiveYield =
      .catastrophic ∧
    SimulationManager.getSeverityClass
        (SimulationManager.computeImpactData 10 5 "rocky").explosiveYield ≠
      .high := by
  have hπ1 := Real.pi_gt_d6
  have hπ2 := Real.pi_lt_d6
  obtain ⟨hylo, hyhi⟩ := scenario_yield_bounds
  refine ⟨?_, ?_, ?_, scenario_severity_catastrophic, ?_⟩
  · intro h
    rw [closeTo, scenario_mass_eq] at h
    have h2 := (abs_le.mp h).2
    nlinarith
  · intro h
    rw [closeTo, scenario_ke_eq] at h
    have h2 := (abs_le.mp h).2
    nlinarith
  · intro h
    rw [closeTo] at h
    have h2 := (abs_le.mp h).2
    nlinarith
  · rw [scenario_severity_catastrophic]
    intro h
    exact SimulationManager.Severity.noConfusion h

/-- C1 as amended: at diameter 10 m, velocity 5 km/s, rocky (density
3000 kg/m³), the computation of `calculateResults` yields
mass ≈ 1.5708×10⁶ kg, kinetic energy ≈ 1.9635×10¹³ J, explosive yield
≈ 4693 tons TNT, crater diameter ≈ 13.9–14.1 km, fireball radius
≈ 8.2–8.3 km, blast radius ≈ 7.2–7.4 km, seismic magnitude ≈ 6.41–6.48,
and severity `catastrophic` (the spec's printed values correspond to a
computation a factor 1000 smaller in mass, and its severity `high` is
wrong for this scenario). -/
theorem claim_c1_amended :
    closeTo (SimulationManager.computeImpactData 10 5 "rocky").mass 1570800 ∧
    closeTo (SimulationManager.computeImpactData 10 5 "rocky").kineticEnergy
      19635000000000 ∧
    closeTo (SimulationManager.computeImpactData 10 5 "rocky").explosiveYield
      4693 ∧
    (13.9 < (SimulationManager.computeImpactData 10 5 "rocky").craterDiameter ∧
      (SimulationManager.computeImpactData 10 5 "rocky").craterDiameter < 14.1) ∧
    (8.2 < (SimulationManager.computeImpactData 10 5 "rocky").fireballRadius ∧
      (SimulationManager.computeImpactData 10 5 "rocky").fireballRadius < 8.3) ∧
    (7.2 < (SimulationManager.computeImpactData 10 5 "rocky").blastRadius ∧
      (SimulationManager.computeImpactData 10 5 "rocky").blastRadius < 7.4) ∧
    (6.41 < (SimulationManager.computeImpactData 10 5 "rocky").seismicMagnitude ∧
      (SimulationManager.computeImpactData 10 5 "rocky").seismicMagnitude <
        6.48) ∧
    SimulationManager.getSeverityClass
        (SimulationManager.computeImpactData 10 5 "rocky").explosiveYield =
      .catastrophic := by
  have hπ1 := Real.pi_gt_d6
  have hπ2 := Real.pi_lt_d6
  obtain ⟨hylo, hyhi⟩ := scenario_yield_bounds
  refine ⟨?_, ?_, ?_, scenario_crater_bounds, scenario_fireball_bounds,
    scenario_blast_bounds, scenario_seismic_bounds,
    scenario_severity_catastrophic⟩
  · rw [closeTo, scenario_mass_eq, abs_le]
    constructor <;> nlinarith
  · rw [closeTo, scenario_ke_eq, abs_le]
    constructor <;> nlinarith
  · rw [closeTo, abs_le]
    constructor <;> nlinarith

/-- Witness for C3 at a concrete, perfectly valid invocation (the default
form values 100 m, 15 km/s, 45°, rocky). -/
theorem claim_c3_unbound_latitude_witness :
    SimulationManager.readGlobal "latitude" = none ∧
    SimulationManager.calculateResults
        { asteroidSizeField := some 100
          asteroidVelocityField := some 15
          impactAngleField := some 45
          compositionField := "rocky"
          strategyField := "none"
          actionTimeField := some 12 } =
      .error (SimulationManager.JsError.referenceError "latitude") :=
  ⟨(claim_c3_unbound_latitude
      { asteroidSizeField := some 100
        asteroidVelocityField := some 15
        impactAngleField := some 45
        compositionField := "rocky"
        strategyField := "none"
        actionTimeField := some 12 }).1,
    (claim_c3_unbound_latitude
      { asteroidSizeField := some 100
        asteroidVelocityField := some 15
        impactAngleField := some 45
        compositionField := "rocky"
        strategyField := "none"
        actionTimeField := some 12 }).2.1⟩
